import Mathlib
set_option linter.unusedVariables false

/-!
Shallow embedding of the media-App client views (Feed, Profile, PostCard,
CreatePost) and proofs about their event handlers.

Modelling conventions, matching the JavaScript/supabase semantics of the
source:
* A remote mutation call resolves with a result object carrying an optional
  error (`CallResult.dbError`), or the underlying promise rejects and the
  surrounding try/catch fires (`CallResult.rejected`), or it succeeds
  (`CallResult.ok`).  Handlers that never inspect the resolved error field
  (handleLike, handleFollow) therefore treat `dbError` like success locally;
  handlers that do `if (error) throw error` route both failure modes into
  their catch block.
* React state setters are modelled by returning the updated state record;
  the value of a state variable captured by a closure at render time is
  passed explicitly where it differs from the latest state (Profile.checkAuth
  calls fetchProfile in the same render that still has currentUser = null).
* Remote collections are lists of records; `user-facing notifications` are
  collected in a `toasts` list, remote operations issued are collected in a
  `calls`/`reads` list of operation names.
* JavaScript number counters are modelled as `Int` (they may go below zero),
  and `error.message || fallback` as `orElseMsg`, where the empty string is
  the only falsy string.
-/

/-- A user-facing notification raised through the toast library. -/
inductive ToastMsg where
  | success (msg : String)
  | error (msg : String)
deriving Repr, DecidableEq

/-- Outcome of one awaited remote call: success, resolution with an error
field (supabase never throws for database errors), or promise rejection. -/
inductive CallResult where
  | ok
  | dbError (msg : String)
  | rejected (msg : String)
deriving Repr, DecidableEq

/-- JavaScript `m || fallback` on strings: the empty string is falsy. -/
def orElseMsg (m fallback : String) : String :=
  if m = "" then fallback else m

/-- JavaScript String.prototype.trim: strip leading and trailing
whitespace. -/
def trimString (s : String) : String :=
  ⟨((s.data.dropWhile Char.isWhitespace).reverse.dropWhile
      Char.isWhitespace).reverse⟩

/-- A row of the remote `profiles` collection (fields this code reads). -/
structure ProfileRec where
  id : String
  username : String
deriving Repr, DecidableEq

/-- A row of the remote `posts` collection. -/
structure PostRec where
  id : String
  user_id : String
  content : String
  created_at : Nat
deriving Repr, DecidableEq

/-- A row of the remote `comments` collection, as inserted by this code
(id and created_at are generated by the remote store). -/
structure CommentRec where
  post_id : String
  user_id : String
  content : String
deriving Repr, DecidableEq

/-- The row sent by the post composer to `posts.insert` (id and created_at
are generated by the remote store). -/
structure InsertedPost where
  user_id : String
  content : String
deriving Repr, DecidableEq

/-- The remote relational store, one list per collection; likes are
(post_id, user_id) pairs and follows are (follower_id, following_id) pairs. -/
structure RemoteDB where
  profiles : List ProfileRec
  posts : List PostRec
  likes : List (String × String)
  comments : List CommentRec
  follows : List (String × String)
deriving Repr, DecidableEq

/-- Local state of one PostCard component. -/
structure PostCardState where
  isLiked : Bool
  likesCount : Int
  commentsCount : Int
  comments : List CommentRec
  newComment : String
  isLoadingComment : Bool
deriving Repr, DecidableEq

/-- PostCard.fetchLikesAndComments: reads the likes and comments rows of the
post and derives the counts from the row sets. -/
def fetchLikesAndComments (postId : String) (likes : List (String × String))
    (comments : List CommentRec) (st : PostCardState) : PostCardState :=
  let likeRows := likes.filter (fun l => l.1 == postId)
  let commentRows := comments.filter (fun c => c.post_id == postId)
  { st with
    likesCount := (likeRows.length : Int)
    commentsCount := (commentRows.length : Int)
    comments := commentRows }

/-- Result of PostCard.handleLike: updated local state, updated remote likes
collection, notifications, and whether fetchLikesAndComments was invoked. -/
structure LikeOut where
  st : PostCardState
  likes : List (String × String)
  toasts : List ToastMsg
  refetched : Bool
deriving Repr, DecidableEq

/-- PostCard.handleLike.  The resolved result of the delete/insert call is
never inspected, so a `dbError` outcome behaves locally like success; only a
rejection reaches the catch block. -/
def handleLike (currentUserId : Option String) (postId : String)
    (st : PostCardState) (likes : List (String × String)) (res : CallResult) :
    LikeOut :=
  match currentUserId with
  | none => ⟨st, likes, [.error "Please log in to like posts"], false⟩
  | some uid =>
    if st.isLiked then
      match res with
      | .ok =>
        ⟨{ st with isLiked := false, likesCount := st.likesCount - 1 },
          likes.filter (fun l => !(l.1 == postId && l.2 == uid)), [], false⟩
      | .dbError _ =>
        ⟨{ st with isLiked := false, likesCount := st.likesCount - 1 },
          likes, [], false⟩
      | .rejected m =>
        ⟨st, likes, [.error (orElseMsg m "Failed to like post")], false⟩
    else
      match res with
      | .ok =>
        ⟨{ st with isLiked := true, likesCount := st.likesCount + 1 },
          (postId, uid) :: likes, [], false⟩
      | .dbError _ =>
        ⟨{ st with isLiked := true, likesCount := st.likesCount + 1 },
          likes, [], false⟩
      | .rejected m =>
        ⟨st, likes, [.error (orElseMsg m "Failed to like post")], false⟩

/-- Result of PostCard.handleComment. -/
structure CommentOut where
  st : PostCardState
  comments : List CommentRec
  toasts : List ToastMsg
  refetched : Bool
  calls : List String
deriving Repr, DecidableEq

/-- PostCard.handleComment: no-op unless a viewer is known and the trimmed
content is non-empty; on insert success clears the field and refetches
likes and comments; `if (error) throw error` routes a `dbError` into the
catch block like a rejection. -/
def handleComment (currentUserId : Option String) (postId : String)
    (st : PostCardState) (likes : List (String × String))
    (comments : List CommentRec) (res : CallResult) : CommentOut :=
  match currentUserId with
  | none => ⟨st, comments, [], false, []⟩
  | some uid =>
    if trimString st.newComment = "" then ⟨st, comments, [], false, []⟩
    else
      let stLoad := { st with isLoadingComment := true }
      match res with
      | .ok =>
        let comments1 := comments ++ [⟨postId, uid, trimString st.newComment⟩]
        let st1 := fetchLikesAndComments postId likes comments1
          { stLoad with newComment := "" }
        ⟨{ st1 with isLoadingComment := false }, comments1,
          [.success "Comment added!"], true,
          ["comments.insert", "likes.select", "comments.select"]⟩
      | .dbError m =>
        ⟨{ stLoad with isLoadingComment := false }, comments,
          [.error (orElseMsg m "Failed to add comment")], false,
          ["comments.insert"]⟩
      | .rejected m =>
        ⟨{ stLoad with isLoadingComment := false }, comments,
          [.error (orElseMsg m "Failed to add comment")], false,
          ["comments.insert"]⟩

/-- Result of PostCard.handleDelete: updated remote posts collection,
notifications, and whether the onDelete callback was invoked. -/
structure DeleteOut where
  posts : List PostRec
  toasts : List ToastMsg
  refreshed : Bool
deriving Repr, DecidableEq

/-- PostCard.handleDelete: deletes the post row; `if (error) throw error`
routes both failure modes into the catch block. -/
def handleDelete (postId : String) (posts : List PostRec) (res : CallResult) :
    DeleteOut :=
  match res with
  | .ok =>
    ⟨posts.filter (fun p => !(p.id == postId)), [.success "Post deleted!"], true⟩
  | .dbError m => ⟨posts, [.error (orElseMsg m "Failed to delete post")], false⟩
  | .rejected m => ⟨posts, [.error (orElseMsg m "Failed to delete post")], false⟩

/-- Result of CreatePost.handleSubmit: final content field, final loading
flag, rows successfully inserted, notifications, whether onPostCreated was
invoked, and the remote calls issued. -/
structure CreatePostOut where
  content : String
  isLoading : Bool
  inserted : List InsertedPost
  toasts : List ToastMsg
  refreshed : Bool
  calls : List String
deriving Repr, DecidableEq

/-- CreatePost.handleSubmit: no-op on blank content; otherwise resolves the
authenticated user (a missing user raises Not authenticated), inserts the
trimmed content, and on success clears the field and refreshes; any thrown
failure is surfaced as an error toast; the finally block clears isLoading on
every path that entered the try. -/
def handleSubmit (content : String) (isLoading : Bool)
    (userRes : Option String) (res : CallResult) : CreatePostOut :=
  if trimString content = "" then ⟨content, isLoading, [], [], false, []⟩
  else
    match userRes with
    | none =>
      ⟨content, false, [], [.error "Not authenticated"], false, ["auth.getUser"]⟩
    | some uid =>
      match res with
      | .ok =>
        ⟨"", false, [⟨uid, trimString content⟩], [.success "Post created!"], true,
          ["auth.getUser", "posts.insert"]⟩
      | .dbError m =>
        ⟨content, false, [], [.error (orElseMsg m "Failed to create post")],
          false, ["auth.getUser", "posts.insert"]⟩
      | .rejected m =>
        ⟨content, false, [], [.error (orElseMsg m "Failed to create post")],
          false, ["auth.getUser", "posts.insert"]⟩

/-- Result of Profile.handleFollow: updated following flag and follower
counter, updated remote follows collection, and notifications. -/
structure FollowOut where
  isFollowing : Bool
  followersCount : Int
  follows : List (String × String)
  toasts : List ToastMsg
deriving Repr, DecidableEq

/-- Profile.handleFollow.  Like handleLike, the resolved result of the
delete/insert call is never inspected, so a `dbError` outcome behaves
locally like success (including its success toast); only a rejection
reaches the catch block. -/
def handleFollow (currentUser : Option String) (targetId : String)
    (isFollowing : Bool) (followersCount : Int)
    (follows : List (String × String)) (res : CallResult) : FollowOut :=
  match currentUser with
  | none => ⟨isFollowing, followersCount, follows, []⟩
  | some uid =>
    if isFollowing then
      match res with
      | .ok =>
        ⟨false, followersCount - 1,
          follows.filter (fun f => !(f.1 == uid && f.2 == targetId)),
          [.success "Unfollowed"]⟩
      | .dbError _ =>
        ⟨false, followersCount - 1, follows, [.success "Unfollowed"]⟩
      | .rejected m =>
        ⟨isFollowing, followersCount, follows,
          [.error (orElseMsg m "Failed to update follow status")]⟩
    else
      match res with
      | .ok =>
        ⟨true, followersCount + 1, (uid, targetId) :: follows,
          [.success "Following!"]⟩
      | .dbError _ =>
        ⟨true, followersCount + 1, follows, [.success "Following!"]⟩
      | .rejected m =>
        ⟨isFollowing, followersCount, follows,
          [.error (orElseMsg m "Failed to update follow status")]⟩

/-- Local state of the Profile view component. -/
structure ProfileViewState where
  currentUser : Option ProfileRec
  profile : Option ProfileRec
  posts : List PostRec
  isFollowing : Bool
  followersCount : Int
  followingCount : Int
  isLoading : Bool
deriving Repr, DecidableEq

/-- Initial useState values of the Profile view. -/
def initialProfileViewState : ProfileViewState :=
  ⟨none, none, [], false, 0, 0, true⟩

/-- Insert one post into a list kept newest-first by created_at. -/
def insertByNewest (p : PostRec) : List PostRec → List PostRec
  | [] => [p]
  | q :: qs =>
    if q.created_at ≤ p.created_at then p :: q :: qs
    else q :: insertByNewest p qs

/-- The remote order by created_at descending. -/
def sortByNewest : List PostRec → List PostRec
  | [] => []
  | p :: ps => insertByNewest p (sortByNewest ps)

/-- Result of a Profile view load: final state and the remote collections
read, in order. -/
structure ProfileFetchOut where
  st : ProfileViewState
  reads : List String
deriving Repr, DecidableEq

/-- Profile.fetchProfile.  `closedCurrentUser` is the value of the
currentUser state variable captured by the closure of the render that
invoked this function; the `if (currentUser)` guard reads that captured
value, not the latest state. -/
def fetchProfile (closedCurrentUser : Option ProfileRec)
    (userId : Option String) (db : RemoteDB) (st : ProfileViewState) :
    ProfileFetchOut :=
  match userId with
  | none => ⟨st, []⟩
  | some uid =>
    let st0 := { st with isLoading := true }
    let profileData := db.profiles.find? (fun p => p.id == uid)
    let postsData := sortByNewest (db.posts.filter (fun p => p.user_id == uid))
    let followerRows := db.follows.filter (fun f => f.2 == uid)
    let followingRows := db.follows.filter (fun f => f.1 == uid)
    let st1 := { st0 with
      profile := profileData
      posts := postsData
      followersCount := (followerRows.length : Int)
      followingCount := (followingRows.length : Int) }
    match closedCurrentUser with
    | some cu =>
      let followRow := db.follows.contains (cu.id, uid)
      ⟨{ st1 with isFollowing := followRow, isLoading := false },
        ["profiles", "posts", "follows", "follows", "follows"]⟩
    | none =>
      ⟨{ st1 with isLoading := false },
        ["profiles", "posts", "follows", "follows"]⟩

/-- Result of a view activation: final state, remote reads, and whether the
view navigated to the authentication entry point. -/
structure ProfileAuthOut where
  st : ProfileViewState
  reads : List String
  redirectedToAuth : Bool
deriving Repr, DecidableEq

/-- Profile.checkAuth: with no session, redirect to /auth and stop; with a
session, load the viewer profile, store it with setCurrentUser, and call
fetchProfile — which still closes over the currentUser value of the render
that created both handlers (`renderCurrentUser`), because setCurrentUser
does not update that binding. -/
def profileCheckAuth (renderCurrentUser : Option ProfileRec)
    (session : Option String) (userId : Option String) (db : RemoteDB)
    (st : ProfileViewState) : ProfileAuthOut :=
  match session with
  | none => ⟨st, [], true⟩
  | some sid =>
    let currentProfile := db.profiles.find? (fun p => p.id == sid)
    let st1 := { st with currentUser := currentProfile }
    let fp := fetchProfile renderCurrentUser userId db st1
    ⟨fp.st, "profiles" :: fp.reads, false⟩

/-- Activation of the Profile view (the useEffect on mount): the effect runs
from the first render, where the currentUser state variable is still its
initial value none. -/
def profileActivate (session : Option String) (userId : Option String)
    (db : RemoteDB) : ProfileAuthOut :=
  profileCheckAuth none session userId db initialProfileViewState

/-- Local state of the Feed view component. -/
structure FeedState where
  currentUser : Option ProfileRec
  posts : List PostRec
  isLoading : Bool
deriving Repr, DecidableEq

/-- Initial useState values of the Feed view. -/
def initialFeedState : FeedState := ⟨none, [], true⟩

/-- Feed.fetchPosts: loads all posts newest-first; a failure is only logged
(posts stay as they were) and the finally block clears isLoading. -/
def fetchPosts (db : RemoteDB) (res : CallResult) (st : FeedState) :
    FeedState × List String :=
  let st0 := { st with isLoading := true }
  match res with
  | .ok => ({ st0 with posts := sortByNewest db.posts, isLoading := false },
      ["posts"])
  | .dbError _ => ({ st0 with isLoading := false }, ["posts"])
  | .rejected _ => ({ st0 with isLoading := false }, ["posts"])

/-- Result of a Feed view activation. -/
structure FeedAuthOut where
  st : FeedState
  reads : List String
  redirectedToAuth : Bool
deriving Repr, DecidableEq

/-- Feed.checkAuth: with no session, redirect to /auth and stop; with a
session, load the viewer profile and then the posts. -/
def feedCheckAuth (session : Option String) (db : RemoteDB)
    (res : CallResult) (st : FeedState) : FeedAuthOut :=
  match session with
  | none => ⟨st, [], true⟩
  | some sid =>
    let profile := db.profiles.find? (fun p => p.id == sid)
    let st1 := { st with currentUser := profile }
    let fp := fetchPosts db res st1
    ⟨fp.1, "profiles" :: fp.2, false⟩

/-- Activation of the Feed view (the useEffect on mount). -/
def feedActivate (session : Option String) (db : RemoteDB)
    (res : CallResult) : FeedAuthOut :=
  feedCheckAuth session db res initialFeedState

/-- Claim C1: for every post card whose local state (isLiked, likesCount)
agrees with the remote likes store, performing the like-toggle twice in
succession with both remote calls succeeding returns the card to its
original liked state and its original like count. -/
theorem claim_C1_like_toggle_twice_restores (uid postId : String)
    (st : PostCardState) (likes : List (String × String))
    (hLiked : st.isLiked = likes.contains (postId, uid))
    (hCount : st.likesCount
      = ((likes.filter (fun l => l.1 == postId)).length : Int)) :
    (handleLike (some uid) postId
        (handleLike (some uid) postId st likes .ok).st
        (handleLike (some uid) postId st likes .ok).likes .ok).st.isLiked
      = st.isLiked ∧
    (handleLike (some uid) postId
        (handleLike (some uid) postId st likes .ok).st
        (handleLike (some uid) postId st likes .ok).likes .ok).st.likesCount
      = st.likesCount := by
  cases h : st.isLiked <;> simp [handleLike, h]

/-- Witness for claim C1 at an unliked card agreeing with an empty store. -/
theorem claim_C1_witness :
    ((⟨false, 0, 0, [], "", false⟩ : PostCardState).isLiked
        = ([] : List (String × String)).contains ("p", "u")) ∧
    ((⟨false, 0, 0, [], "", false⟩ : PostCardState).likesCount
        = ((([] : List (String × String)).filter
            (fun l => l.1 == "p")).length : Int)) ∧
    ((handleLike (some "u") "p"
        (handleLike (some "u") "p" ⟨false, 0, 0, [], "", false⟩ [] .ok).st
        (handleLike (some "u") "p" ⟨false, 0, 0, [], "", false⟩ [] .ok).likes
        .ok).st.isLiked
      = (⟨false, 0, 0, [], "", false⟩ : PostCardState).isLiked ∧
    (handleLike (some "u") "p"
        (handleLike (some "u") "p" ⟨false, 0, 0, [], "", false⟩ [] .ok).st
        (handleLike (some "u") "p" ⟨false, 0, 0, [], "", false⟩ [] .ok).likes
        .ok).st.likesCount
      = (⟨false, 0, 0, [], "", false⟩ : PostCardState).likesCount) :=
  ⟨by decide, by decide,
    claim_C1_like_toggle_twice_restores "u" "p" ⟨false, 0, 0, [], "", false⟩ []
      (by decide) (by decide)⟩

/-- Claim C4: activating the Feed view or the Profile view with no active
session redirects to the authentication entry point and performs no remote
data loads. -/
theorem claim_C4_no_session_redirects_no_loads (db : RemoteDB)
    (res : CallResult) (userId : Option String) :
    feedActivate none db res = ⟨initialFeedState, [], true⟩ ∧
    profileActivate none userId db = ⟨initialProfileViewState, [], true⟩ :=
  ⟨rfl, rfl⟩

/-- Claim C5: blank (empty or whitespace-only) content makes both the post
composer submission and the comment form submission complete no-ops: no
insertion, no remote call, content field and state unchanged. -/
theorem claim_C5_blank_content_noop (content : String) (isLoading : Bool)
    (userRes : Option String) (res res2 : CallResult) (uid postId : String)
    (st : PostCardState) (likes : List (String × String))
    (comments : List CommentRec)
    (hpost : trimString content = "") (hcomment : trimString st.newComment = "") :
    handleSubmit content isLoading userRes res
      = ⟨content, isLoading, [], [], false, []⟩ ∧
    handleComment (some uid) postId st likes comments res2
      = ⟨st, comments, [], false, []⟩ := by
  constructor
  · simp [handleSubmit, hpost]
  · simp [handleComment, hcomment]

/-- Witness for claim C5 at whitespace-only composer and comment content. -/
theorem claim_C5_witness :
    (trimString " " = "") ∧
    (trimString (⟨false, 0, 0, [], "\t\n", false⟩ : PostCardState).newComment = "") ∧
    (handleSubmit " " false (some "u") .ok
      = ⟨" ", false, [], [], false, []⟩ ∧
    handleComment (some "u") "p" ⟨false, 0, 0, [], "\t\n", false⟩ [] [] .ok
      = ⟨⟨false, 0, 0, [], "\t\n", false⟩, [], [], false, []⟩) :=
  ⟨by decide, by decide,
    claim_C5_blank_content_noop " " false (some "u") .ok .ok "u" "p"
      ⟨false, 0, 0, [], "\t\n", false⟩ [] [] (by decide) (by decide)⟩

/-- Claim C7: with a known viewer, a successful like toggle on a card with
isLiked = false and likesCount = 3 sets isLiked = true and likesCount = 4
by local mutation alone, without refetching the likes collection. -/
theorem claim_C7_like_unliked_count3 (uid postId : String)
    (st : PostCardState) (likes : List (String × String))
    (h1 : st.isLiked = false) (h2 : st.likesCount = 3) :
    (handleLike (some uid) postId st likes .ok).st.isLiked = true ∧
    (handleLike (some uid) postId st likes .ok).st.likesCount = 4 ∧
    (handleLike (some uid) postId st likes .ok).refetched = false := by
  simp [handleLike, h1, h2]

/-- Witness for claim C7 at a concrete unliked card with three likes. -/
theorem claim_C7_witness :
    ((⟨false, 3, 0, [], "", false⟩ : PostCardState).isLiked = false) ∧
    ((⟨false, 3, 0, [], "", false⟩ : PostCardState).likesCount = 3) ∧
    ((handleLike (some "u") "p" ⟨false, 3, 0, [], "", false⟩ []
        .ok).st.isLiked = true ∧
    (handleLike (some "u") "p" ⟨false, 3, 0, [], "", false⟩ []
        .ok).st.likesCount = 4 ∧
    (handleLike (some "u") "p" ⟨false, 3, 0, [], "", false⟩ []
        .ok).refetched = false) :=
  ⟨by decide, by decide,
    claim_C7_like_unliked_count3 "u" "p" ⟨false, 3, 0, [], "", false⟩ []
      (by decide) (by decide)⟩

/-- Claim C10: a successful like toggle with a known viewer flips isLiked
and changes likesCount in step, so the quantity likesCount minus (1 if
isLiked else 0) is invariant: the count is incremented exactly when isLiked
turns true and decremented exactly when it turns false. -/
theorem claim_C10_like_toggle_invariant (uid postId : String)
    (st : PostCardState) (likes : List (String × String)) :
    (handleLike (some uid) postId st likes .ok).st.isLiked = !st.isLiked ∧
    (handleLike (some uid) postId st likes .ok).st.likesCount
        - (if (handleLike (some uid) postId st likes .ok).st.isLiked
            then (1 : Int) else 0)
      = st.likesCount - (if st.isLiked then (1 : Int) else 0) := by
  cases h : st.isLiked <;> simp [handleLike, h]

/-- Claim C6: for every Profile view whose local state (isFollowing,
followersCount) agrees with the remote follows store, performing the
follow-toggle twice in succession with both remote calls succeeding returns
the view to its original following state and its original follower count. -/
theorem claim_C6_follow_toggle_twice_restores (uid targetId : String)
    (isF : Bool) (c : Int) (follows : List (String × String))
    (hF : isF = follows.contains (uid, targetId))
    (hc : c = ((follows.filter (fun f => f.2 == targetId)).length : Int)) :
    (handleFollow (some uid) targetId
        (handleFollow (some uid) targetId isF c follows .ok).isFollowing
        (handleFollow (some uid) targetId isF c follows .ok).followersCount
        (handleFollow (some uid) targetId isF c follows .ok).follows
        .ok).isFollowing = isF ∧
    (handleFollow (some uid) targetId
        (handleFollow (some uid) targetId isF c follows .ok).isFollowing
        (handleFollow (some uid) targetId isF c follows .ok).followersCount
        (handleFollow (some uid) targetId isF c follows .ok).follows
        .ok).followersCount = c := by
  cases isF <;> simp [handleFollow]

/-- Witness for claim C6 at a not-yet-following view agreeing with an empty
store. -/
theorem claim_C6_witness :
    (false = ([] : List (String × String)).contains ("u", "t")) ∧
    ((0 : Int) = ((([] : List (String × String)).filter
        (fun f => f.2 == "t")).length : Int)) ∧
    ((handleFollow (some "u") "t"
        (handleFollow (some "u") "t" false 0 [] .ok).isFollowing
        (handleFollow (some "u") "t" false 0 [] .ok).followersCount
        (handleFollow (some "u") "t" false 0 [] .ok).follows
        .ok).isFollowing = false ∧
    (handleFollow (some "u") "t"
        (handleFollow (some "u") "t" false 0 [] .ok).isFollowing
        (handleFollow (some "u") "t" false 0 [] .ok).followersCount
        (handleFollow (some "u") "t" false 0 [] .ok).follows
        .ok).followersCount = 0) :=
  ⟨by decide, by decide,
    claim_C6_follow_toggle_twice_restores "u" "t" false 0 []
      (by decide) (by decide)⟩

/-- Claim C8: every submission of the post composer with non-blank content
terminates with the loading flag cleared, whatever the outcome of the user
lookup and the insertion, and on failure an error notification is
surfaced. -/
theorem claim_C8_submit_clears_loading (content : String) (isLoading : Bool)
    (userRes : Option String) (res : CallResult)
    (h : ¬ trimString content = "") :
    (handleSubmit content isLoading userRes res).isLoading = false ∧
    (userRes = none ∨ res ≠ .ok →
      ∃ m, ToastMsg.error m ∈ (handleSubmit content isLoading userRes res).toasts) := by
  refine ⟨?_, ?_⟩
  · cases userRes <;> cases res <;> simp [handleSubmit, h]
  · intro hf
    cases userRes with
    | none => exact ⟨"Not authenticated", by simp [handleSubmit, h]⟩
    | some uid =>
      cases res with
      | ok =>
        rcases hf with h1 | h2
        · exact absurd h1 (by simp)
        · exact absurd rfl h2
      | dbError m =>
        exact ⟨orElseMsg m "Failed to create post", by simp [handleSubmit, h]⟩
      | rejected m =>
        exact ⟨orElseMsg m "Failed to create post", by simp [handleSubmit, h]⟩

/-- Witness for claim C8 at a non-blank submission whose insertion fails. -/
theorem claim_C8_witness :
    (¬ trimString "hello" = "") ∧
    ((handleSubmit "hello" false (some "u") (.dbError "boom")).isLoading
        = false ∧
    ((some "u" : Option String) = none ∨ (.dbError "boom" : CallResult) ≠ .ok →
      ∃ m, ToastMsg.error m
        ∈ (handleSubmit "hello" false (some "u") (.dbError "boom")).toasts)) :=
  ⟨by decide,
    claim_C8_submit_clears_loading "hello" false (some "u") (.dbError "boom")
      (by decide)⟩

/-- Claim C9: a comment submission with non-blank content whose insertion
fails keeps the pre-submission comment input and triggers no refetch of
likes and comments; the input is cleared only on a successful insertion. -/
theorem claim_C9_comment_failure_keeps_input (uid postId : String)
    (st : PostCardState) (likes : List (String × String))
    (comments : List CommentRec) (res : CallResult)
    (hnb : ¬ trimString st.newComment = "") (hfail : res ≠ .ok) :
    (handleComment (some uid) postId st likes comments res).st.newComment
      = st.newComment ∧
    (handleComment (some uid) postId st likes comments res).refetched
      = false ∧
    (handleComment (some uid) postId st likes comments .ok).st.newComment
      = "" := by
  cases res with
  | ok => exact absurd rfl hfail
  | dbError m => simp [handleComment, fetchLikesAndComments, hnb]
  | rejected m => simp [handleComment, fetchLikesAndComments, hnb]

/-- Witness for claim C9 at a concrete failing insertion. -/
theorem claim_C9_witness :
    (¬ trimString (⟨false, 0, 0, [], "hi", false⟩ :
        PostCardState).newComment = "") ∧
    ((.dbError "boom" : CallResult) ≠ .ok) ∧
    ((handleComment (some "u") "p" ⟨false, 0, 0, [], "hi", false⟩ [] []
        (.dbError "boom")).st.newComment
      = (⟨false, 0, 0, [], "hi", false⟩ : PostCardState).newComment ∧
    (handleComment (some "u") "p" ⟨false, 0, 0, [], "hi", false⟩ [] []
        (.dbError "boom")).refetched = false ∧
    (handleComment (some "u") "p" ⟨false, 0, 0, [], "hi", false⟩ [] []
        .ok).st.newComment = "") :=
  ⟨by decide, by decide,
    claim_C9_comment_failure_keeps_input "u" "p"
      ⟨false, 0, 0, [], "hi", false⟩ [] [] (.dbError "boom")
      (by decide) (by decide)⟩

/-- Claim C2 counterexample: a like toggle whose remote call resolves with a
database error surfaces no notification at all — handleLike never inspects
the resolved error field — so the claim that every failing mutation surfaces
a user-facing notification is false at this input.  (The optimistic local
update is applied regardless: isLiked flips to true.) -/
theorem claim_C2_counterexample :
    (handleLike (some "u") "p" ⟨false, 0, 0, [], "", false⟩ []
        (.dbError "boom")).toasts = [] ∧
    (handleLike (some "u") "p" ⟨false, 0, 0, [], "", false⟩ []
        (.dbError "boom")).st.isLiked = true := by
  decide

/-- Claim C2 (amended): when a comment, post-create, or delete mutation
fails (database error or rejection), the handler surfaces an error
notification carrying the failure message or a generic fallback and does
not roll back local state (the comment input and the composer content are
retained).  When a like or follow call resolves with a database error, the
handler ignores it: no failure notification is shown — the follow handler
even shows its usual success notification — and the optimistic local update
is applied exactly as on success.  When a like or follow call rejects, an
error notification is shown and the local state is left at its pre-action
value, because these handlers update state only after the awaited call. -/
theorem claim_C2_amended (m uid postId targetId content : String)
    (pid : String) (st : PostCardState)
    (likes follows : List (String × String)) (comments : List CommentRec)
    (posts : List PostRec) (isF : Bool) (c : Int) (isLoading : Bool)
    (hC : ¬ trimString st.newComment = "")
    (hP : ¬ trimString content = "") :
    (handleComment (some uid) postId st likes comments (.dbError m)).toasts
      = [.error (orElseMsg m "Failed to add comment")] ∧
    (handleComment (some uid) postId st likes comments
        (.dbError m)).st.newComment = st.newComment ∧
    (handleComment (some uid) postId st likes comments (.rejected m)).toasts
      = [.error (orElseMsg m "Failed to add comment")] ∧
    (handleSubmit content isLoading (some uid) (.dbError m)).toasts
      = [.error (orElseMsg m "Failed to create post")] ∧
    (handleSubmit content isLoading (some uid) (.dbError m)).content
      = content ∧
    (handleDelete pid posts (.dbError m)).toasts
      = [.error (orElseMsg m "Failed to delete post")] ∧
    (handleDelete pid posts (.rejected m)).toasts
      = [.error (orElseMsg m "Failed to delete post")] ∧
    (handleLike (some uid) postId st likes (.dbError m)).toasts = [] ∧
    (handleLike (some uid) postId st likes (.dbError m)).st.isLiked
      = !st.isLiked ∧
    (handleLike (some uid) postId st likes (.rejected m)).toasts
      = [.error (orElseMsg m "Failed to like post")] ∧
    (handleLike (some uid) postId st likes (.rejected m)).st = st ∧
    (handleFollow (some uid) targetId isF c follows (.dbError m)).isFollowing
      = !isF ∧
    (handleFollow (some uid) targetId isF c follows (.dbError m)).toasts
      = [.success (if isF then "Unfollowed" else "Following!")] ∧
    (handleFollow (some uid) targetId isF c follows (.rejected m)).toasts
      = [.error (orElseMsg m "Failed to update follow status")] ∧
    (handleFollow (some uid) targetId isF c follows
        (.rejected m)).isFollowing = isF := by
  cases hL : st.isLiked <;> cases isF <;>
    simp [handleComment, handleSubmit, handleDelete, handleLike,
      handleFollow, hC, hP, hL]

/-- Witness for the amended claim C2 at concrete failing mutations. -/
theorem claim_C2_amended_witness :
    (¬ trimString (⟨false, 0, 0, [], "hi", false⟩ :
        PostCardState).newComment = "") ∧
    (¬ trimString "hello" = "") ∧
    ((handleComment (some "u") "p" ⟨false, 0, 0, [], "hi", false⟩ [] []
        (.dbError "boom")).toasts
      = [.error (orElseMsg "boom" "Failed to add comment")] ∧
    (handleComment (some "u") "p" ⟨false, 0, 0, [], "hi", false⟩ [] []
        (.dbError "boom")).st.newComment
      = (⟨false, 0, 0, [], "hi", false⟩ : PostCardState).newComment ∧
    (handleComment (some "u") "p" ⟨false, 0, 0, [], "hi", false⟩ [] []
        (.rejected "boom")).toasts
      = [.error (orElseMsg "boom" "Failed to add comment")] ∧
    (handleSubmit "hello" false (some "u") (.dbError "boom")).toasts
      = [.error (orElseMsg "boom" "Failed to create post")] ∧
    (handleSubmit "hello" false (some "u") (.dbError "boom")).content
      = "hello" ∧
    (handleDelete "p" [] (.dbError "boom")).toasts
      = [.error (orElseMsg "boom" "Failed to delete post")] ∧
    (handleDelete "p" [] (.rejected "boom")).toasts
      = [.error (orElseMsg "boom" "Failed to delete post")] ∧
    (handleLike (some "u") "p" ⟨false, 0, 0, [], "hi", false⟩ []
        (.dbError "boom")).toasts = [] ∧
    (handleLike (some "u") "p" ⟨false, 0, 0, [], "hi", false⟩ []
        (.dbError "boom")).st.isLiked
      = !(⟨false, 0, 0, [], "hi", false⟩ : PostCardState).isLiked ∧
    (handleLike (some "u") "p" ⟨false, 0, 0, [], "hi", false⟩ []
        (.rejected "boom")).toasts
      = [.error (orElseMsg "boom" "Failed to like post")] ∧
    (handleLike (some "u") "p" ⟨false, 0, 0, [], "hi", false⟩ []
        (.rejected "boom")).st
      = (⟨false, 0, 0, [], "hi", false⟩ : PostCardState) ∧
    (handleFollow (some "u") "t" false 0 [] (.dbError "boom")).isFollowing
      = !false ∧
    (handleFollow (some "u") "t" false 0 [] (.dbError "boom")).toasts
      = [.success (if false then "Unfollowed" else "Following!")] ∧
    (handleFollow (some "u") "t" false 0 [] (.rejected "boom")).toasts
      = [.error (orElseMsg "boom" "Failed to update follow status")] ∧
    (handleFollow (some "u") "t" false 0 [] (.rejected "boom")).isFollowing
      = false) :=
  ⟨by decide, by decide,
    claim_C2_amended "boom" "u" "p" "t" "hello" "p"
      ⟨false, 0, 0, [], "hi", false⟩ [] [] [] [] false 0 false
      (by decide) (by decide)⟩

/-- The remote store for the claim C3 evaluation: viewer v, target t, and an
existing follow row (v, t). -/
def dbStaleClosure : RemoteDB :=
  ⟨[⟨"v", "viewer"⟩, ⟨"t", "target"⟩], [], [], [], [("v", "t")]⟩

/-- Claim C3: on activation with an active session the Profile view is
claimed to set isFollowing from the follows membership test whenever a
viewer is known.  The code violates this: checkAuth stores the viewer with
setCurrentUser and then calls fetchProfile, whose `if (currentUser)` guard
reads the currentUser binding of the mount-time render, still null, so the
(viewer id, target id) membership query is skipped and isFollowing stays
false even though the viewer is known and the follow row exists — the reads
list contains no third follows query. -/
theorem claim_C3_stale_closure_skips_membership :
    (profileActivate (some "v") (some "t") dbStaleClosure).st.currentUser
      = some ⟨"v", "viewer"⟩ ∧
    dbStaleClosure.follows.contains ("v", "t") = true ∧
    (profileActivate (some "v") (some "t") dbStaleClosure).st.isFollowing
      = false ∧
    (profileActivate (some "v") (some "t") dbStaleClosure).reads
      = ["profiles", "profiles", "posts", "follows", "follows"] := by
  decide
